import Mathlib

-- Shallow embedding of the adaptive-gripper firmware
-- (Grkila/Adaptive-Gripper-with-Micro-Vibration-Based-Slip-Detection).
-- Floating-point values are modelled by exact rationals; machine integers by Int/Nat.

set_option maxRecDepth 100000

namespace Gripper

-- ==================== Config.h constants ====================

/-- FFT_SAMPLES from Config.h. -/
def FFT_SAMPLES : ℕ := 128

/-- SCAN_INTERVAL_US from Config.h (500 us scan cycle). -/
def SCAN_INTERVAL_US : ℕ := 500

/-- MAGNETIC_SENSOR_SAMPLING_FREQUENCY = 1000000.0 / SCAN_INTERVAL_US (= 2000 Hz). -/
def MAGNETIC_SENSOR_SAMPLING_FREQUENCY : ℚ := 1000000 / (SCAN_INTERVAL_US : ℚ)

/-- SLIP_THRESHOLD from Config.h. -/
def SLIP_THRESHOLD : ℚ := 40

/-- SLIP_FREQ_START_HZ from Config.h. -/
def SLIP_FREQ_START_HZ : ℕ := 80

/-- SLIP_FREQ_END_HZ from Config.h. -/
def SLIP_FREQ_END_HZ : ℕ := 200

/-- SLIP_DETECTION_IGNORE_CYCLES from Config.h. -/
def SLIP_DETECTION_IGNORE_CYCLES : ℤ := 100

/-- SERVO_FULLY_OPEN from Config.h. -/
def SERVO_FULLY_OPEN : ℤ := 180

/-- SERVO_FULLY_CLOSED from Config.h. -/
def SERVO_FULLY_CLOSED : ℤ := 0

/-- REACTION_COOLDOWN_MS from Config.h. -/
def REACTION_COOLDOWN_MS : ℕ := 64

/-- GRIP_CURRENT_THRESHOLD_MA from Config.h. -/
def GRIP_CURRENT_THRESHOLD_MA : ℚ := 0

/-- GRIP_MAGNITUDE_THRESHOLD from Config.h (1.2). -/
def GRIP_MAGNITUDE_THRESHOLD : ℚ := 12 / 10

/-- GRIP_MAGNITUDE_DROP_MARGIN from Config.h (0.2). -/
def GRIP_MAGNITUDE_DROP_MARGIN : ℚ := 2 / 10

/-- GRASPING_STEP from Config.h. -/
def GRASPING_STEP : ℤ := 1

/-- OPENING_STEP from Config.h. -/
def OPENING_STEP : ℤ := 5

/-- MAX_REACTION_STEPS from Config.h. -/
def MAX_REACTION_STEPS : ℤ := 4

/-- TMC_MAX_SPEED from Config.h. -/
def TMC_MAX_SPEED : ℤ := 6000

/-- TMC_ACCELERATION from Config.h. -/
def TMC_ACCELERATION : ℤ := 5000

/-- TMC_HOMING_THRESHOLD from Config.h. -/
def TMC_HOMING_THRESHOLD : ℤ := 3

/-- TMC_HOMING_CONSECUTIVE_STALLS from Config.h. -/
def TMC_HOMING_CONSECUTIVE_STALLS : ℕ := 3

/-- POSITION_DEADZONE from MotorDriver.cpp. -/
def POSITION_DEADZONE : ℚ := 100

-- ==================== C arithmetic helpers ====================

/-- C round(): rounds half away from zero. -/
def cround (x : ℚ) : ℤ := if 0 ≤ x then Int.floor (x + 1 / 2) else -Int.floor (-x + 1 / 2)

/-- C double-to-int conversion: truncation toward zero. -/
def ctrunc (x : ℚ) : ℤ := if 0 ≤ x then Int.floor x else -Int.floor (-x)

-- ==================== SlipDetection (Logic/SlipDetection.cpp) ====================

/-- start_bin = round(SLIP_FREQ_START_HZ * FFT_SAMPLES / fs) from SlipDetection.cpp. -/
def start_bin : ℕ :=
  (cround ((SLIP_FREQ_START_HZ : ℚ) * (FFT_SAMPLES : ℚ) / MAGNETIC_SENSOR_SAMPLING_FREQUENCY)).toNat

/-- end_bin = round(SLIP_FREQ_END_HZ * FFT_SAMPLES / fs) from SlipDetection.cpp. -/
def end_bin : ℕ :=
  (cround ((SLIP_FREQ_END_HZ : ℚ) * (FFT_SAMPLES : ℚ) / MAGNETIC_SENSOR_SAMPLING_FREQUENCY)).toNat

/-- The bins visited by the scan loop in detect: for (i = start_bin; i < end_bin; i++),
so the end bin is excluded. -/
def scannedBins : List ℕ := List.range' start_bin (end_bin - start_bin)

/-- Per-bin power (vReal[i]^2 + vImag[i]^2) / FFT_SAMPLES, as computed in detect. -/
def power (vR vI : ℕ → ℚ) (i : ℕ) : ℚ :=
  (vR i * vR i + vI i * vI i) / (FFT_SAMPLES : ℚ)

/-- peak_freq assignment in detect: i * (fs / FFT_SAMPLES) stored into an int,
so the value is truncated toward zero. -/
def binFreqInt (i : ℕ) : ℤ :=
  ctrunc ((i : ℚ) * (MAGNETIC_SENSOR_SAMPLING_FREQUENCY / (FFT_SAMPLES : ℚ)))

/-- One step of the peak-search loop body in detect. -/
def peakStep (p : ℕ → ℚ) (F : ℕ → ℤ) (acc : ℚ × ℤ) (i : ℕ) : ℚ × ℤ :=
  if acc.1 < p i then (p i, F i) else acc

/-- The peak-search loop of detect: starts with max_power = 0, peak_freq = 0 and
updates both on each strict improvement of the power. -/
def peakScan (vR vI : ℕ → ℚ) : ℚ × ℤ :=
  scannedBins.foldl (peakStep (power vR vI) binFreqInt) (0, 0)

/-- Global slip-detection state shared between SlipDetection and GrippingFSM.
slip_flag and slip_indicator are in both firmware revisions; new_slip_data_ready and
ignore_counter appear in the Thesis_Gripper revision. -/
structure SlipState where
  slip_flag : Bool
  slip_indicator : ℚ
  new_slip_data_ready : Bool
  ignore_counter : ℤ
deriving DecidableEq, Repr

/-- Initial slip-detection state (all globals zeroed). -/
def initSlip : SlipState :=
  { slip_flag := false, slip_indicator := 0, new_slip_data_ready := false, ignore_counter := 0 }

/-- SlipDetection::detect from ADAPTIVE_GRIPPING_FINAL/src/Logic/SlipDetection.cpp.
Takes the FFT_complete flag and the window arrays of fftY_high_pass; returns the
updated slip state and the FFT_complete flag after the call (cleared on consumption).
The debug-mutex publication is telemetry only and is not modelled. -/
def SlipDetection.detect (s : SlipState) (complete : Bool) (vR vI : ℕ → ℚ) :
    SlipState × Bool :=
  if complete then
    let mp := (peakScan vR vI).1
    let pf := (peakScan vR vI).2
    let ind := mp * (pf : ℚ)
    ({ s with slip_indicator := ind, slip_flag := decide (SLIP_THRESHOLD < ind) }, false)
  else
    (s, complete)

/-- SlipDetection::reset from ADAPTIVE_GRIPPING_FINAL/src/Logic/SlipDetection.cpp:
clears slip_flag and zeroes slip_indicator. -/
def SlipDetection.reset (s : SlipState) : SlipState :=
  { s with slip_flag := false, slip_indicator := 0 }

/-- SlipDetection::detect from firmware/Thesis_Gripper/src/Logic/SlipDetection.cpp:
identical scan, but additionally sets new_slip_data_ready on a completed window.
Note that this function never reads or decrements ignore_counter: the
source comment (Handle ignore counter) is followed by an empty body. -/
def SlipDetection.detectThesis (s : SlipState) (complete : Bool) (vR vI : ℕ → ℚ) :
    SlipState × Bool :=
  if complete then
    let mp := (peakScan vR vI).1
    let pf := (peakScan vR vI).2
    let ind := mp * (pf : ℚ)
    let s2 : SlipState :=
      { s with
        slip_indicator := ind
        slip_flag := decide (SLIP_THRESHOLD < ind)
        new_slip_data_ready := true }
    (s2, false)
  else
    (s, complete)

/-- SlipDetection::reset from firmware/Thesis_Gripper/src/Logic/SlipDetection.cpp:
clears slip_flag and new_slip_data_ready; the slip_indicator line is commented out. -/
def SlipDetection.resetThesis (s : SlipState) : SlipState :=
  { s with slip_flag := false, new_slip_data_ready := false }

/-- SlipDetection::ignoreFor from firmware/Thesis_Gripper/src/Logic/SlipDetection.cpp
(the only implementation of ignoreFor in the repository): stores the cycle count
into ignore_counter and calls reset. -/
def SlipDetection.ignoreFor (n : ℤ) (s : SlipState) : SlipState :=
  SlipDetection.resetThesis { s with ignore_counter := n }

-- Spec-side definitions for claim C1, written from the words of the specification.

/-- Modelled from the spec: the bins of the configured closed band [f_start, f_end],
with bin index = round(f * N / f_sample); both endpoint bins included. -/
def claimBand : List ℕ := List.range' start_bin (end_bin + 1 - start_bin)

/-- Modelled from the spec: the exact (untruncated) frequency of bin i. -/
def binFreq (i : ℕ) : ℚ := (i : ℚ) * (MAGNETIC_SENSOR_SAMPLING_FREQUENCY / (FFT_SAMPLES : ℚ))

/-- Spec-side maximum power over the bins actually scanned by the code. -/
def bandMaxPower (vR vI : ℕ → ℚ) : ℚ := (scannedBins.map (power vR vI)).foldr max 0

-- Concrete windows used as counterexamples / failing inputs.

/-- A window whose only energy is in bin 13 (the end bin, excluded by the scan loop). -/
def w13R : ℕ → ℚ := fun i => if i = 13 then 32 else 0

/-- A window whose only energy is in bin 10 (inside the scanned band). -/
def w10R : ℕ → ℚ := fun i => if i = 10 then 32 else 0

/-- The all-zero imaginary array. -/
def wZero : ℕ → ℚ := fun _ => 0

-- ==================== FFTProcessor (Logic/FFTProcessor.cpp) ====================

/-- The AxisFFT structure from Types.h: one spectral window per monitored channel.
The ArduinoFFT object itself is external library state and is not part of the model. -/
structure AxisFFT where
  vReal : List ℚ
  vImag : List ℚ
  index : ℕ
  FFT_complete : Bool
deriving DecidableEq, Repr

/-- An empty window, as built by the AxisFFT constructor in Types.h: buffers zeroed,
index 0, FFT_complete false. -/
def emptyAxis : AxisFFT :=
  { vReal := List.replicate FFT_SAMPLES 0
    vImag := List.replicate FFT_SAMPLES 0
    index := 0
    FFT_complete := false }

/-- FFTProcessor::processSingleAxis from ADAPTIVE_GRIPPING_FINAL/src/Logic/FFTProcessor.cpp,
with the mutex acquisition modelled as always succeeding (single-threaded semantics).
The external ArduinoFFT calls fft.compute + complexToMagnitude are abstracted by the
transform parameter T on the pair of buffers. Returns the updated window and the value
of axisData.FFT_complete returned by the function. -/
def FFTProcessor.processSingleAxis (T : List ℚ → List ℚ → List ℚ × List ℚ)
    (a : AxisFFT) (value : ℚ) : AxisFFT × Bool :=
  if a.FFT_complete then
    (a, a.FFT_complete)
  else if a.index < FFT_SAMPLES then
    let a2 : AxisFFT :=
      { vReal := a.vReal.set a.index value
        vImag := a.vImag.set a.index 0
        index := a.index + 1
        FFT_complete := a.FFT_complete }
    (a2, a2.FFT_complete)
  else
    let rim := T a.vReal a.vImag
    let a2 : AxisFFT :=
      { vReal := rim.1, vImag := rim.2, index := 0, FFT_complete := true }
    (a2, a2.FFT_complete)

/-- Feeding a sequence of samples to processSingleAxis, one call per sample. -/
def feedSamples (T : List ℚ → List ℚ → List ℚ × List ℚ) (a : AxisFFT) (vs : List ℚ) :
    AxisFFT :=
  vs.foldl (fun st v => (FFTProcessor.processSingleAxis T st v).1) a

/-- A trivial concrete transform used to instantiate counterexamples. -/
def Tid : List ℚ → List ℚ → List ℚ × List ℚ := fun r i => (r, i)

-- ==================== MotorDriver (Drivers/MotorDriver.cpp, TMC2209 ramp) ====================

/-- The MotorDriver static state from ADAPTIVE_GRIPPING_FINAL/src/Drivers/MotorDriver.h. -/
structure MotorState where
  targetPosition : ℚ
  currentPosition : ℚ
  targetSpeed : ℤ
  currentSpeed : ℤ
  enabled : Bool
  positionMode : Bool
deriving DecidableEq, Repr

/-- Part 1 of the motorTask loop body
(ADAPTIVE_GRIPPING_FINAL/src/Drivers/MotorDriver.cpp, lines 241-268): position
control logic, setting targetSpeed from the position error with a deadzone, and
enabling/disabling the driver accordingly. -/
def positionPhase (s : MotorState) : MotorState :=
  if s.positionMode then
    let error := s.targetPosition - s.currentPosition
    if |error| < POSITION_DEADZONE then
      let sa := if s.currentSpeed = 0 ∧ s.enabled = true then { s with enabled := false } else s
      { sa with targetSpeed := 0 }
    else
      let d := if 0 < error then TMC_MAX_SPEED else -TMC_MAX_SPEED
      let sa := if s.enabled = true then s else { s with enabled := true }
      { sa with targetSpeed := d }
  else s

/-- Part 2 of the motorTask loop body: the shared speed-ramp logic, moving
currentSpeed toward targetSpeed by at most the acceleration and clamping at the
target, and disabling the driver when current and target speed are both zero. -/
def rampPhase (acc : ℤ) (s : MotorState) : MotorState :=
  if s.currentSpeed < s.targetSpeed then
    let c := s.currentSpeed + acc
    { s with currentSpeed := if s.targetSpeed < c then s.targetSpeed else c }
  else if s.targetSpeed < s.currentSpeed then
    let c := s.currentSpeed - acc
    { s with currentSpeed := if c < s.targetSpeed then s.targetSpeed else c }
  else if s.currentSpeed = 0 then
    { s with currentSpeed := 0, enabled := false }
  else s

/-- Part 3 of the motorTask loop body: the hardware write VACTUAL(currentSpeed) when
enabled, or VACTUAL(0) with currentSpeed forced to 0 when disabled. -/
def hardwarePhase (s : MotorState) : MotorState :=
  if s.enabled = true then s else { s with currentSpeed := 0 }

/-- Part 4 of the motorTask loop body: open-loop position integration
currentPosition += currentSpeed * dt while enabled and moving. -/
def integratePhase (dt : ℚ) (s : MotorState) : MotorState :=
  if s.enabled = true ∧ s.currentSpeed ≠ 0 then
    { s with currentPosition := s.currentPosition + (s.currentSpeed : ℚ) * dt }
  else s

/-- One iteration of the loop body of MotorDriver::motorTask
(ADAPTIVE_GRIPPING_FINAL/src/Drivers/MotorDriver.cpp, lines 238-305), with the mutex
acquisition modelled as succeeding: parts 1-4 in source order. The acceleration is a
parameter (the source reads the configured TMC_ACCELERATION); dt models
TMC_TASK_DELAY_MS / 1000 (that constant is referenced by the source but defined
outside the repository files). -/
def motorCycle (acc : ℤ) (dt : ℚ) (s : MotorState) : MotorState :=
  integratePhase dt (hardwarePhase (rampPhase acc (positionPhase s)))

/-- The start state of end-to-end scenario 5: after setTargetSpeed(0) with
currentSpeed = 2000 the driver is in speed mode with targetSpeed 0, still enabled. -/
def speedScenarioStart : MotorState :=
  { targetPosition := 0
    currentPosition := 0
    targetSpeed := 0
    currentSpeed := 2000
    enabled := true
    positionMode := false }

-- ==================== GrippingFSM (Logic/GrippingFSM.cpp) ====================

/-- The GrippingMode enum from Types.h. -/
inductive GrippingMode where
  | GRIPPING_MODE_OPEN
  | GRIPPING_MODE_GRASPING
  | GRIPPING_MODE_HOLDING
  | GRIPPING_MODE_REACTING
  | GRIPPING_MODE_OPENING
deriving DecidableEq, Repr

/-- The ButtonState structure from Types.h. -/
structure ButtonState where
  button_1 : Bool
  button_2 : Bool
  button_3 : Bool
  button_4 : Bool
  button_5 : Bool
deriving DecidableEq, Repr

/-- The global state read and written by GrippingFSM::process: the FSM globals from
Globals.h plus the slip-detection globals it shares with SlipDetection. -/
structure FSMState where
  gripping_mode : GrippingMode
  servo_position : ℤ
  last_reaction_time : ℕ
  last_slip_or_entry_time : ℕ
  last_backoff_time : ℕ
  slip : SlipState
deriving DecidableEq, Repr

/-- The per-cycle inputs of GrippingFSM::process; now models the millis() clock. -/
structure FSMInputs where
  buttons : ButtonState
  current_mA : ℚ
  magnitude : ℚ
  now : ℕ
deriving DecidableEq, Repr

/-- GrippingFSM::process from ADAPTIVE_GRIPPING_FINAL/src/Logic/GrippingFSM.cpp.
millis() is modelled by the single injected timestamp inp.now; the unsigned
subtraction millis() - last_reaction_time is ℕ truncated subtraction. -/
def GrippingFSM.process (s : FSMState) (inp : FSMInputs) : FSMState :=
  match s.gripping_mode with
  | GrippingMode.GRIPPING_MODE_OPEN =>
      if inp.buttons.button_1 then
        { s with gripping_mode := GrippingMode.GRIPPING_MODE_GRASPING }
      else s
  | GrippingMode.GRIPPING_MODE_GRASPING =>
      let s1 : FSMState :=
        if REACTION_COOLDOWN_MS < inp.now - s.last_reaction_time then
          let pos := s.servo_position - GRASPING_STEP
          let pos := if pos < SERVO_FULLY_CLOSED then SERVO_FULLY_CLOSED else pos
          { s with
            last_reaction_time := inp.now
            servo_position := pos
            slip := SlipDetection.ignoreFor SLIP_DETECTION_IGNORE_CYCLES s.slip }
        else s
      if GRIP_CURRENT_THRESHOLD_MA < inp.current_mA ∧ GRIP_MAGNITUDE_THRESHOLD < inp.magnitude then
        { s1 with
          gripping_mode := GrippingMode.GRIPPING_MODE_HOLDING
          last_slip_or_entry_time := inp.now
          last_backoff_time := inp.now }
      else if inp.buttons.button_2 then
        { s1 with gripping_mode := GrippingMode.GRIPPING_MODE_OPENING }
      else s1
  | GrippingMode.GRIPPING_MODE_HOLDING =>
      let s1 : FSMState :=
        if s.slip.new_slip_data_ready then
          let sa : FSMState :=
            if s.slip.slip_flag then
              { s with
                last_reaction_time := inp.now
                last_slip_or_entry_time := inp.now
                last_backoff_time := inp.now
                gripping_mode := GrippingMode.GRIPPING_MODE_REACTING }
            else s
          { sa with slip := { sa.slip with new_slip_data_ready := false, slip_flag := false } }
        else s
      let s2 : FSMState :=
        if inp.magnitude < GRIP_MAGNITUDE_THRESHOLD - GRIP_MAGNITUDE_DROP_MARGIN then
          { s1 with gripping_mode := GrippingMode.GRIPPING_MODE_GRASPING }
        else s1
      if inp.buttons.button_1 then
        { s2 with gripping_mode := GrippingMode.GRIPPING_MODE_GRASPING }
      else if inp.buttons.button_2 then
        { s2 with gripping_mode := GrippingMode.GRIPPING_MODE_OPENING }
      else s2
  | GrippingMode.GRIPPING_MODE_REACTING =>
      let slip_u := cround (s.slip.slip_indicator / SLIP_THRESHOLD)
      let slip_u := if MAX_REACTION_STEPS < slip_u then MAX_REACTION_STEPS else slip_u
      let pos := s.servo_position - slip_u
      let pos := if pos < SERVO_FULLY_CLOSED then SERVO_FULLY_CLOSED else pos
      { s with
        servo_position := pos
        slip := SlipDetection.reset s.slip
        gripping_mode := GrippingMode.GRIPPING_MODE_HOLDING
        last_slip_or_entry_time := inp.now
        last_backoff_time := inp.now }
  | GrippingMode.GRIPPING_MODE_OPENING =>
      let s1 : FSMState :=
        if s.servo_position < SERVO_FULLY_OPEN then
          let pos := s.servo_position + OPENING_STEP
          let pos := if SERVO_FULLY_OPEN < pos then SERVO_FULLY_OPEN else pos
          { s with
            servo_position := pos
            slip := SlipDetection.ignoreFor SLIP_DETECTION_IGNORE_CYCLES s.slip }
        else s
      if SERVO_FULLY_OPEN ≤ s1.servo_position then
        { s1 with gripping_mode := GrippingMode.GRIPPING_MODE_OPEN }
      else s1

-- ==================== Filters (Thesis_Gripper/src/Logic/Filters.cpp) ====================

/-- The IIRFilter structure from Types.h. -/
structure IIRFilter where
  previousOutput : ℚ
  alpha : ℚ
deriving DecidableEq, Repr

/-- IIRFilter::filter from Types.h: y[n] = alpha * x[n] + (1 - alpha) * y[n-1];
returns the output and the updated filter state. -/
def IIRFilter.filter (f : IIRFilter) (input : ℚ) : ℚ × IIRFilter :=
  let output := f.alpha * input + (1 - f.alpha) * f.previousOutput
  (output, { f with previousOutput := output })

/-- The MagneticData structure from Types.h (raw plus band-split fields). -/
structure MagneticData where
  x : ℚ
  y : ℚ
  z : ℚ
  magnitude : ℚ
  x_low_pass : ℚ
  y_low_pass : ℚ
  z_low_pass : ℚ
  magnitude_low_pass : ℚ
  x_high_pass : ℚ
  y_high_pass : ℚ
  z_high_pass : ℚ
  magnitude_high_pass : ℚ
deriving DecidableEq, Repr

/-- The four 30 Hz band-split filter instances from Filters.cpp. -/
structure BandSplitFilters where
  filter30Hz_X : IIRFilter
  filter30Hz_Y : IIRFilter
  filter30Hz_Z : IIRFilter
  filter30Hz_Magnitude : IIRFilter
deriving DecidableEq, Repr

/-- Filters::applyBandSplitFilterMagneticSensor from
firmware/Thesis_Gripper/src/Logic/Filters.cpp: applies the 30 Hz low-pass filter per
channel and derives each high-pass value as raw minus low-pass. -/
def Filters.applyBandSplitFilterMagneticSensor (st : BandSplitFilters) (d : MagneticData) :
    BandSplitFilters × MagneticData :=
  let rx := st.filter30Hz_X.filter d.x
  let ry := st.filter30Hz_Y.filter d.y
  let rz := st.filter30Hz_Z.filter d.z
  let rm := st.filter30Hz_Magnitude.filter d.magnitude
  let st2 : BandSplitFilters :=
    { filter30Hz_X := rx.2
      filter30Hz_Y := ry.2
      filter30Hz_Z := rz.2
      filter30Hz_Magnitude := rm.2 }
  let d2 : MagneticData :=
    { d with
      x_low_pass := rx.1
      y_low_pass := ry.1
      z_low_pass := rz.1
      magnitude_low_pass := rm.1
      x_high_pass := d.x - rx.1
      y_high_pass := d.y - ry.1
      z_high_pass := d.z - rz.1
      magnitude_high_pass := d.magnitude - rm.1 }
  (st2, d2)

-- ==================== Homing stall debounce (MotorDriver::runHomingRoutine) ====================

/-- The stall-confirmation loop of MotorDriver::runHomingRoutine
(firmware/ADAPTIVE_GRIPPING_FINAL/src/Drivers/MotorDriver.cpp, lines 190-210), folded
over the sequence of load readings: a reading below TMC_HOMING_THRESHOLD increments
the consecutive counter and declares stall once it reaches
TMC_HOMING_CONSECUTIVE_STALLS; a reading at or above the threshold resets the counter
to zero. The timeout and isRunning exits are modelled by the end of the reading list. -/
def stalledFrom (c : ℕ) : List ℤ → Bool
  | [] => false
  | l :: ls =>
      if l < TMC_HOMING_THRESHOLD then
        if TMC_HOMING_CONSECUTIVE_STALLS ≤ c + 1 then true
        else stalledFrom (c + 1) ls
      else stalledFrom 0 ls

/-- The homing routine enters the approach phase with consecutiveStalls = 0. -/
def homingStalled (loads : List ℤ) : Bool := stalledFrom 0 loads

/-- A list of readings whose first n entries all lie below the homing threshold. -/
def belowPrefix (n : ℕ) (l : List ℤ) : Prop :=
  n ≤ l.length ∧ ∀ k, k < n → l.getD k 0 < TMC_HOMING_THRESHOLD

/-- Some n consecutive readings in the list all lie below the homing threshold. -/
def hasConsecBelow (n : ℕ) (loads : List ℤ) : Prop :=
  ∃ t, t <:+ loads ∧ belowPrefix n t

-- ==================== Helper lemmas ====================

/-- Per-bin power is nonnegative. -/
theorem power_nonneg (vR vI : ℕ → ℚ) (i : ℕ) : 0 ≤ power vR vI i := by
  unfold power
  refine div_nonneg (add_nonneg (mul_self_nonneg _) (mul_self_nonneg _)) ?_
  norm_num [FFT_SAMPLES]

/-- The peak-search fold either leaves the accumulator unchanged or returns the pair
of some visited bin. -/
theorem peak_foldl_mem (p : ℕ → ℚ) (F : ℕ → ℤ) (l : List ℕ) (acc : ℚ × ℤ) :
    l.foldl (peakStep p F) acc = acc ∨ ∃ i ∈ l, l.foldl (peakStep p F) acc = (p i, F i) := by
  induction l generalizing acc with
  | nil => exact Or.inl rfl
  | cons i t ih =>
      simp only [List.foldl_cons]
      rcases ih (peakStep p F acc i) with h | h
      · rw [h]
        unfold peakStep
        split
        · exact Or.inr ⟨i, by simp, rfl⟩
        · exact Or.inl rfl
      · rcases h with ⟨j, hj, hEq⟩
        exact Or.inr ⟨j, by simp [hj], hEq⟩

/-- The running maximum of the peak-search fold never decreases. -/
theorem peak_foldl_fst_ge (p : ℕ → ℚ) (F : ℕ → ℤ) (l : List ℕ) (acc : ℚ × ℤ) :
    acc.1 ≤ (l.foldl (peakStep p F) acc).1 := by
  induction l generalizing acc with
  | nil => exact le_refl _
  | cons i t ih =>
      simp only [List.foldl_cons]
      refine le_trans ?_ (ih (peakStep p F acc i))
      unfold peakStep
      split
      · exact le_of_lt (by assumption)
      · exact le_refl _

/-- The final running maximum dominates the power of every visited bin. -/
theorem peak_foldl_fst_ge_elem (p : ℕ → ℚ) (F : ℕ → ℤ) (l : List ℕ) (acc : ℚ × ℤ) :
    ∀ i ∈ l, p i ≤ (l.foldl (peakStep p F) acc).1 := by
  induction l generalizing acc with
  | nil => intro i h; cases h
  | cons j t ih =>
      intro i hi
      simp only [List.foldl_cons]
      rcases List.mem_cons.mp hi with h | h
      · subst h
        refine le_trans ?_ (peak_foldl_fst_ge p F t (peakStep p F acc i))
        unfold peakStep
        split
        · exact le_refl _
        · exact le_of_not_lt (by assumption)
      · exact ih (peakStep p F acc j) i h

/-- A fold of max starting at 0 is nonnegative. -/
theorem foldr_max_nonneg (l : List ℚ) : 0 ≤ l.foldr max 0 := by
  induction l with
  | nil => exact le_refl _
  | cons x t ih => exact le_max_of_le_right ih

/-- Every element is bounded by the fold of max. -/
theorem le_foldr_max (l : List ℚ) (x : ℚ) (h : x ∈ l) : x ≤ l.foldr max 0 := by
  induction l with
  | nil => cases h
  | cons y t ih =>
      rcases List.mem_cons.mp h with h1 | h1
      · subst h1; exact le_max_left _ _
      · exact le_max_of_le_right (ih h1)

/-- The fold of max is bounded by any nonnegative upper bound of the elements. -/
theorem foldr_max_le (l : List ℚ) (c : ℚ) (h0 : 0 ≤ c) (h : ∀ x ∈ l, x ≤ c) :
    l.foldr max 0 ≤ c := by
  induction l with
  | nil => exact h0
  | cons y t ih =>
      refine max_le (h y (by simp)) (ih ?_)
      intro x hx
      exact h x (by simp [hx])

-- ==================== Claim C1 ====================

/-- Claim C1, counterexample: on the window whose only energy lies in bin 13 — the bin
of f_end = 200 Hz, since round(200 * 128 / 2000) = 13 — the code computes
slip_indicator = 0 and slip_flag = false, although bin 13 belongs to the configured
band [f_start, f_end], holds the maximal power 8, and the claimed value
max_power * bin_frequency is 8 * 203.125 = 1625 > SLIP_THRESHOLD. The scan loop
excludes the end bin, and it would multiply by the truncated integer frequency. -/
theorem slip_band_claim_counterexample :
    (SlipDetection.detect initSlip true w13R wZero).1.slip_indicator = 0 ∧
    (SlipDetection.detect initSlip true w13R wZero).1.slip_flag = false ∧
    13 ∈ claimBand ∧
    (claimBand.all fun j => decide (power w13R wZero j ≤ power w13R wZero 13)) = true ∧
    power w13R wZero 13 * binFreq 13 = 1625 ∧
    SLIP_THRESHOLD < 1625 ∧ (0 : ℚ) ≠ 1625 := by
  refine ⟨?_, ?_, ?_, ?_, ?_, ?_, ?_⟩
  · with_unfolding_all rfl
  · with_unfolding_all rfl
  · exact of_decide_eq_true (by with_unfolding_all rfl)
  · with_unfolding_all rfl
  · with_unfolding_all rfl
  · exact of_decide_eq_true (by with_unfolding_all rfl)
  · exact of_decide_eq_true (by with_unfolding_all rfl)

/-- Claim C1 (amended): for every completed window on the monitored channel, detect
sets slip_indicator to the maximum over the scanned bins
start_bin ≤ i < end_bin (end-exclusive) of the power (real^2 + imag^2) / N,
multiplied by the peak bin frequency i * (f_sample / N) truncated to an integer;
when every scanned bin has zero power the indicator is 0. It sets slip_flag to true
exactly when slip_indicator > SLIP_THRESHOLD. -/
theorem slip_detect_characterization (vR vI : ℕ → ℚ) :
    ((SlipDetection.detect initSlip true vR vI).1.slip_flag =
      decide (SLIP_THRESHOLD < (SlipDetection.detect initSlip true vR vI).1.slip_indicator)) ∧
    ((bandMaxPower vR vI = 0 ∧ (SlipDetection.detect initSlip true vR vI).1.slip_indicator = 0) ∨
      ∃ i ∈ scannedBins, power vR vI i = bandMaxPower vR vI ∧
        (SlipDetection.detect initSlip true vR vI).1.slip_indicator =
          bandMaxPower vR vI * ((binFreqInt i : ℤ) : ℚ)) := by
  have hind : (SlipDetection.detect initSlip true vR vI).1.slip_indicator =
      (peakScan vR vI).1 * ((peakScan vR vI).2 : ℚ) := by
    simp [SlipDetection.detect]
  constructor
  · simp [SlipDetection.detect]
  · have hscan : peakScan vR vI = scannedBins.foldl (peakStep (power vR vI) binFreqInt) (0, 0) := rfl
    rcases peak_foldl_mem (power vR vI) binFreqInt scannedBins (0, 0) with h | h
    · left
      have h1 : (peakScan vR vI).1 = 0 := by rw [hscan, h]
      have hmax : bandMaxPower vR vI = 0 := by
        refine le_antisymm ?_ (foldr_max_nonneg _)
        refine foldr_max_le _ 0 (le_refl _) ?_
        intro x hx
        rcases List.mem_map.mp hx with ⟨i, hi, hxi⟩
        have := peak_foldl_fst_ge_elem (power vR vI) binFreqInt scannedBins (0, 0) i hi
        rw [← hscan, h1] at this
        rw [← hxi]
        exact this
      refine ⟨hmax, ?_⟩
      rw [hind, h1, zero_mul]
    · rcases h with ⟨i, hi, hEq⟩
      right
      have h1 : (peakScan vR vI).1 = power vR vI i := by rw [hscan, hEq]
      have h2 : (peakScan vR vI).2 = binFreqInt i := by rw [hscan, hEq]
      have hmax : bandMaxPower vR vI = power vR vI i := by
        refine le_antisymm ?_ (le_foldr_max _ _ (List.mem_map.mpr ⟨i, hi, rfl⟩))
        refine foldr_max_le _ _ (power_nonneg vR vI i) ?_
        intro x hx
        rcases List.mem_map.mp hx with ⟨j, hj, hxj⟩
        have := peak_foldl_fst_ge_elem (power vR vI) binFreqInt scannedBins (0, 0) j hj
        rw [← hscan, h1] at this
        rw [← hxj]
        exact this
      exact ⟨i, hi, hmax.symm, by rw [hind, h1, h2, hmax]⟩

-- ==================== Claims C2 and C3 ====================

/-- Setting position vs.length in a list that is vs followed by a nonempty tail
replaces the head of the tail. -/
theorem set_append_at (vs : List ℚ) (v x : ℚ) (rest : List ℚ) :
    (vs ++ (x :: rest)).set vs.length v = vs ++ (v :: rest) := by
  induction vs with
  | nil => rfl
  | cons a t ih => simp [List.set, ih]

/-- Setting any position of an all-zero list to zero leaves it unchanged. -/
theorem set_replicate_zero (n j : ℕ) :
    (List.replicate n (0 : ℚ)).set j 0 = List.replicate n 0 := by
  induction n generalizing j with
  | zero => rfl
  | succ m ih =>
      cases j with
      | zero => simp [List.replicate_succ, List.set]
      | succ k => simp [List.replicate_succ, List.set, ih]

/-- Feeding at most FFT_SAMPLES samples into an empty window stores them in order
with zero imaginary part, advances the index by one per sample, and never completes
the window. -/
theorem feed_from_empty (T : List ℚ → List ℚ → List ℚ × List ℚ) (vs : List ℚ)
    (h : vs.length ≤ FFT_SAMPLES) :
    feedSamples T emptyAxis vs =
      { vReal := vs ++ List.replicate (FFT_SAMPLES - vs.length) 0
        vImag := List.replicate FFT_SAMPLES 0
        index := vs.length
        FFT_complete := false } := by
  induction vs using List.reverseRecOn with
  | nil => simp [feedSamples, emptyAxis]
  | append_singleton vs v ih =>
      have hlen : vs.length < FFT_SAMPLES := by
        have := h
        simp only [List.length_append, List.length_cons, List.length_nil] at this
        omega
      have hvs : vs.length ≤ FFT_SAMPLES := le_of_lt hlen
      have hstep : feedSamples T emptyAxis (vs ++ [v]) =
          (FFTProcessor.processSingleAxis T (feedSamples T emptyAxis vs) v).1 := by
        simp [feedSamples, List.foldl_append]
      rw [hstep, ih hvs]
      have hrep : FFT_SAMPLES - vs.length = (FFT_SAMPLES - (vs.length + 1)) + 1 := by omega
      simp only [FFTProcessor.processSingleAxis, hlen, if_true, if_false]
      simp only [Bool.false_eq_true, if_false, hlen, if_true]
      rw [hrep, List.replicate_succ, set_append_at, set_replicate_zero]
      simp

/-- Claim C2, counterexample: starting from an empty window, feeding exactly
N = FFT_SAMPLES samples to processSingleAxis does not complete the window — after the
N-th call FFT_complete is still false and the index is N, not 0. The transform only
runs on the following call. -/
theorem window_after_N_counterexample :
    (feedSamples Tid emptyAxis (List.replicate FFT_SAMPLES (1 : ℚ))).FFT_complete = false ∧
    (feedSamples Tid emptyAxis (List.replicate FFT_SAMPLES (1 : ℚ))).index = FFT_SAMPLES := by
  rw [feed_from_empty Tid (List.replicate FFT_SAMPLES (1 : ℚ)) (by simp)]
  simp

/-- Claim C2 (amended): starting from an empty window, the first N = FFT_SAMPLES calls
to processSingleAxis only fill the window (index N, not FULL, the N samples stored
with zero imaginary part); the (N+1)-th call triggers the completion: it applies the
transform (the abstracted fft.compute and complexToMagnitude pair) to the stored
window, marks the window FULL, resets the index to 0, and discards the (N+1)-th
sample (the result does not depend on it). -/
theorem window_completion (T : List ℚ → List ℚ → List ℚ × List ℚ) (vs : List ℚ)
    (h : vs.length = FFT_SAMPLES) (v : ℚ) :
    feedSamples T emptyAxis vs =
      { vReal := vs
        vImag := List.replicate FFT_SAMPLES 0
        index := FFT_SAMPLES
        FFT_complete := false } ∧
    (FFTProcessor.processSingleAxis T (feedSamples T emptyAxis vs) v).1 =
      { vReal := (T vs (List.replicate FFT_SAMPLES 0)).1
        vImag := (T vs (List.replicate FFT_SAMPLES 0)).2
        index := 0
        FFT_complete := true } ∧
    (FFTProcessor.processSingleAxis T (feedSamples T emptyAxis vs) v).2 = true := by
  have h1 : feedSamples T emptyAxis vs =
      { vReal := vs
        vImag := List.replicate FFT_SAMPLES 0
        index := FFT_SAMPLES
        FFT_complete := false } := by
    rw [feed_from_empty T vs (le_of_eq h), h]
    simp
  refine ⟨h1, ?_, ?_⟩
  · rw [h1]
    simp [FFTProcessor.processSingleAxis]
  · rw [h1]
    simp [FFTProcessor.processSingleAxis]

/-- Claim C2 witness: the amended completion theorem applied to a concrete window of
128 ones followed by one further sample. -/
theorem window_completion_witness :
    (List.replicate 128 (1 : ℚ)).length = FFT_SAMPLES ∧
    (FFTProcessor.processSingleAxis Tid
      (feedSamples Tid emptyAxis (List.replicate 128 (1 : ℚ))) 7).1.FFT_complete = true ∧
    (FFTProcessor.processSingleAxis Tid
      (feedSamples Tid emptyAxis (List.replicate 128 (1 : ℚ))) 7).1.index = 0 := by
  have hw := window_completion Tid (List.replicate 128 (1 : ℚ)) (by simp [FFT_SAMPLES]) 7
  refine ⟨by simp [FFT_SAMPLES], ?_, ?_⟩
  · rw [hw.2.1]
  · rw [hw.2.1]

/-- Claim C3: whenever the window is FULL (FFT_complete still set), processSingleAxis
discards the new sample and leaves the whole window state — buffers, index and flag —
unchanged, returning true. -/
theorem full_window_backpressure (T : List ℚ → List ℚ → List ℚ × List ℚ)
    (a : AxisFFT) (v : ℚ) (h : a.FFT_complete = true) :
    FFTProcessor.processSingleAxis T a v = (a, true) := by
  simp [FFTProcessor.processSingleAxis, h]

/-- Claim C3 witness: the backpressure theorem applied to a concrete FULL window. -/
theorem full_window_backpressure_witness :
    ({ emptyAxis with FFT_complete := true } : AxisFFT).FFT_complete = true ∧
    FFTProcessor.processSingleAxis Tid { emptyAxis with FFT_complete := true } 5 =
      ({ emptyAxis with FFT_complete := true }, true) :=
  ⟨rfl, full_window_backpressure Tid { emptyAxis with FFT_complete := true } 5 rfl⟩

-- ==================== Claim C4 ====================

/-- The position-control phase never changes currentSpeed. -/
theorem positionPhase_currentSpeed (s : MotorState) :
    (positionPhase s).currentSpeed = s.currentSpeed := by
  unfold positionPhase
  dsimp only
  split_ifs <;> simp

/-- If the position-control phase leaves the driver disabled, then either it disabled
it (which requires currentSpeed = 0) or the driver was already disabled. -/
theorem positionPhase_enabled_false (s : MotorState) :
    (positionPhase s).enabled = false → s.currentSpeed = 0 ∨ s.enabled = false := by
  unfold positionPhase
  dsimp only
  split_ifs <;> simp_all

/-- The ramp phase never changes targetSpeed. -/
theorem rampPhase_targetSpeed (acc : ℤ) (s : MotorState) :
    (rampPhase acc s).targetSpeed = s.targetSpeed := by
  unfold rampPhase
  dsimp only
  split_ifs <;> simp

/-- The ramp phase moves currentSpeed toward targetSpeed by at most acc and clamps at
the target, never overshooting. -/
theorem rampPhase_move (acc : ℤ) (s : MotorState) (hacc : 0 < acc) :
    |(rampPhase acc s).currentSpeed - s.currentSpeed| ≤ acc ∧
    min s.currentSpeed s.targetSpeed ≤ (rampPhase acc s).currentSpeed ∧
    (rampPhase acc s).currentSpeed ≤ max s.currentSpeed s.targetSpeed := by
  unfold rampPhase
  dsimp only
  split_ifs <;> simp_all [abs_le] <;> omega

/-- If the ramp phase leaves the driver disabled, either the driver entered the phase
disabled or the ramp disabled it in the branch where both speeds are zero. -/
theorem rampPhase_enabled_false (acc : ℤ) (s : MotorState) :
    (rampPhase acc s).enabled = false →
    s.enabled = false ∨ (s.currentSpeed = 0 ∧ (rampPhase acc s).currentSpeed = 0) := by
  unfold rampPhase
  dsimp only
  split_ifs <;> simp_all

/-- The hardware phase never changes the enabled flag. -/
theorem hardwarePhase_enabled (s : MotorState) : (hardwarePhase s).enabled = s.enabled := by
  unfold hardwarePhase
  split_ifs <;> simp_all

/-- The hardware phase never changes targetSpeed. -/
theorem hardwarePhase_targetSpeed (s : MotorState) :
    (hardwarePhase s).targetSpeed = s.targetSpeed := by
  unfold hardwarePhase
  split_ifs <;> simp

/-- While enabled, the hardware phase keeps currentSpeed. -/
theorem hardwarePhase_currentSpeed_enabled (s : MotorState) (h : s.enabled = true) :
    (hardwarePhase s).currentSpeed = s.currentSpeed := by
  unfold hardwarePhase
  simp [h]

/-- While disabled, the hardware phase forces currentSpeed to 0. -/
theorem hardwarePhase_currentSpeed_disabled (s : MotorState) (h : s.enabled = false) :
    (hardwarePhase s).currentSpeed = 0 := by
  unfold hardwarePhase
  simp [h]

/-- The integration phase only changes currentPosition. -/
theorem integratePhase_fields (dt : ℚ) (s : MotorState) :
    (integratePhase dt s).currentSpeed = s.currentSpeed ∧
    (integratePhase dt s).enabled = s.enabled ∧
    (integratePhase dt s).targetSpeed = s.targetSpeed := by
  unfold integratePhase
  split_ifs <;> simp_all

/-- The ramp invariant for one motorTask cycle: currentSpeed moves toward the
targetSpeed of the cycle by at most the acceleration, never overshooting, and
whenever the cycle ends disabled the speed is zero; a cycle that disables an enabled
driver does so only with currentSpeed already zero. -/
theorem motor_ramp_invariant (acc : ℤ) (dt : ℚ) (s : MotorState) (hacc : 0 < acc)
    (hinv : s.enabled = false → s.currentSpeed = 0) :
    |(motorCycle acc dt s).currentSpeed - s.currentSpeed| ≤ acc ∧
    min s.currentSpeed (motorCycle acc dt s).targetSpeed ≤ (motorCycle acc dt s).currentSpeed ∧
    (motorCycle acc dt s).currentSpeed ≤ max s.currentSpeed (motorCycle acc dt s).targetSpeed ∧
    ((motorCycle acc dt s).enabled = false → (motorCycle acc dt s).currentSpeed = 0) ∧
    (s.enabled = true → (motorCycle acc dt s).enabled = false → s.currentSpeed = 0) := by
  have hI := integratePhase_fields dt (hardwarePhase (rampPhase acc (positionPhase s)))
  have e1 : (motorCycle acc dt s).currentSpeed =
      (hardwarePhase (rampPhase acc (positionPhase s))).currentSpeed := hI.1
  have e2 : (motorCycle acc dt s).enabled =
      (hardwarePhase (rampPhase acc (positionPhase s))).enabled := hI.2.1
  have e3 : (motorCycle acc dt s).targetSpeed =
      (hardwarePhase (rampPhase acc (positionPhase s))).targetSpeed := hI.2.2
  have f1 : (positionPhase s).currentSpeed = s.currentSpeed := positionPhase_currentSpeed s
  have f3 : (hardwarePhase (rampPhase acc (positionPhase s))).targetSpeed =
      (positionPhase s).targetSpeed := by
    rw [hardwarePhase_targetSpeed, rampPhase_targetSpeed]
  have hen := hardwarePhase_enabled (rampPhase acc (positionPhase s))
  cases hs2 : (rampPhase acc (positionPhase s)).enabled with
  | true =>
      have g1 : (hardwarePhase (rampPhase acc (positionPhase s))).currentSpeed =
          (rampPhase acc (positionPhase s)).currentSpeed :=
        hardwarePhase_currentSpeed_enabled _ hs2
      have hR := rampPhase_move acc (positionPhase s) hacc
      rw [f1] at hR
      have hcycen : (motorCycle acc dt s).enabled = true := by rw [e2, hen, hs2]
      refine ⟨?_, ?_, ?_, ?_, ?_⟩
      · rw [e1, g1]; exact hR.1
      · rw [e1, g1, e3, f3]; exact hR.2.1
      · rw [e1, g1, e3, f3]; exact hR.2.2
      · intro h; rw [hcycen] at h; cases h
      · intro _ h; rw [hcycen] at h; cases h
  | false =>
      have g0 : (hardwarePhase (rampPhase acc (positionPhase s))).currentSpeed = 0 :=
        hardwarePhase_currentSpeed_disabled _ hs2
      have hcs0 : s.currentSpeed = 0 := by
        rcases rampPhase_enabled_false acc (positionPhase s) hs2 with h | h
        · rcases positionPhase_enabled_false s h with h2 | h2
          · exact h2
          · exact hinv h2
        · rw [← f1]; exact h.1
      refine ⟨?_, ?_, ?_, ?_, ?_⟩
      · rw [e1, g0, hcs0]; simpa using le_of_lt hacc
      · rw [e1, g0, ← hcs0]; exact min_le_left _ _
      · rw [e1, g0, hcs0]; exact le_max_left _ _
      · intro _; rw [e1, g0]
      · intro _ _; exact hcs0

/-- Claim C4: in every motorTask cycle, currentSpeed moves toward targetSpeed by at
most one acceleration increment, clamping at the target so it never overshoots, and
the actuator is disabled only in cycles whose currentSpeed is 0; and from
currentSpeed = 2000 with commanded speed 0 and acceleration 500, currentSpeed reaches
0 in exactly 4 cycles, with the disable happening on the following cycle where both
target and current speed are zero. -/
theorem motor_ramp_and_scenario :
    (∀ (acc : ℤ) (dt : ℚ) (s : MotorState), 0 < acc →
      (s.enabled = false → s.currentSpeed = 0) →
      |(motorCycle acc dt s).currentSpeed - s.currentSpeed| ≤ acc ∧
      min s.currentSpeed (motorCycle acc dt s).targetSpeed ≤ (motorCycle acc dt s).currentSpeed ∧
      (motorCycle acc dt s).currentSpeed ≤ max s.currentSpeed (motorCycle acc dt s).targetSpeed ∧
      ((motorCycle acc dt s).enabled = false → (motorCycle acc dt s).currentSpeed = 0) ∧
      (s.enabled = true → (motorCycle acc dt s).enabled = false → s.currentSpeed = 0)) ∧
    ((motorCycle 500 1)^[3] speedScenarioStart).currentSpeed ≠ 0 ∧
    ((motorCycle 500 1)^[4] speedScenarioStart).currentSpeed = 0 ∧
    ((motorCycle 500 1)^[4] speedScenarioStart).enabled = true ∧
    ((motorCycle 500 1)^[5] speedScenarioStart).currentSpeed = 0 ∧
    ((motorCycle 500 1)^[5] speedScenarioStart).enabled = false := by
  refine ⟨motor_ramp_invariant, ?_⟩
  decide

/-- Claim C4 witness: the ramp invariant applied to the concrete scenario start
state with acceleration 500. -/
theorem motor_ramp_witness :
    ((0 : ℤ) < 500) ∧
    (speedScenarioStart.enabled = false → speedScenarioStart.currentSpeed = 0) ∧
    |(motorCycle 500 1 speedScenarioStart).currentSpeed - speedScenarioStart.currentSpeed| ≤ 500 :=
  ⟨by decide, by decide,
    (motor_ramp_and_scenario.1 500 1 speedScenarioStart (by decide) (by decide)).1⟩

-- ==================== Claims C5, C6, C10 (GrippingFSM) ====================

/-- C round of a nonnegative rational is nonnegative. -/
theorem cround_nonneg (x : ℚ) (h : 0 ≤ x) : 0 ≤ cround x := by
  unfold cround
  rw [if_pos h]
  exact Int.floor_nonneg.mpr (by linarith)

/-- One FSM cycle keeps servo_position within the servo range and keeps the slip
indicator nonnegative. -/
theorem process_position_invariant (s : FSMState) (inp : FSMInputs)
    (h1 : SERVO_FULLY_CLOSED ≤ s.servo_position) (h2 : s.servo_position ≤ SERVO_FULLY_OPEN)
    (h3 : 0 ≤ s.slip.slip_indicator) :
    SERVO_FULLY_CLOSED ≤ (GrippingFSM.process s inp).servo_position ∧
    (GrippingFSM.process s inp).servo_position ≤ SERVO_FULLY_OPEN ∧
    0 ≤ (GrippingFSM.process s inp).slip.slip_indicator := by
  have hc : 0 ≤ cround (s.slip.slip_indicator / SLIP_THRESHOLD) :=
    cround_nonneg _ (div_nonneg h3 (by norm_num [SLIP_THRESHOLD]))
  unfold GrippingFSM.process
  simp only [SERVO_FULLY_CLOSED, SERVO_FULLY_OPEN, GRASPING_STEP, OPENING_STEP,
    MAX_REACTION_STEPS] at *
  cases hm : s.gripping_mode <;>
    dsimp only <;>
    (try simp only [SlipDetection.ignoreFor, SlipDetection.resetThesis, SlipDetection.reset]) <;>
    split_ifs <;>
    refine ⟨?_, ?_, ?_⟩ <;>
    dsimp only <;>
    first
      | omega
      | exact h3
      | exact le_refl 0

/-- Folding any input sequence through the FSM preserves the position bounds and the
nonnegative slip indicator. -/
theorem process_fold_invariant (l : List FSMInputs) : ∀ s : FSMState,
    SERVO_FULLY_CLOSED ≤ s.servo_position → s.servo_position ≤ SERVO_FULLY_OPEN →
    0 ≤ s.slip.slip_indicator →
    SERVO_FULLY_CLOSED ≤ (l.foldl GrippingFSM.process s).servo_position ∧
    (l.foldl GrippingFSM.process s).servo_position ≤ SERVO_FULLY_OPEN ∧
    0 ≤ (l.foldl GrippingFSM.process s).slip.slip_indicator := by
  induction l with
  | nil => intro s h1 h2 h3; exact ⟨h1, h2, h3⟩
  | cons a t ih =>
      intro s h1 h2 h3
      have hstep := process_position_invariant s a h1 h2 h3
      exact ih (GrippingFSM.process s a) hstep.1 hstep.2.1 hstep.2.2

/-- Claim C5: for every sequence of GrippingFSM::process calls from any state with
SERVO_FULLY_CLOSED <= servo_position <= SERVO_FULLY_OPEN (and the nonnegative slip
indicator that the slip detector maintains), servo_position stays within
[SERVO_FULLY_CLOSED, SERVO_FULLY_OPEN] after every call. -/
theorem servo_position_bounds (s : FSMState) (l : List FSMInputs)
    (h1 : SERVO_FULLY_CLOSED ≤ s.servo_position) (h2 : s.servo_position ≤ SERVO_FULLY_OPEN)
    (h3 : 0 ≤ s.slip.slip_indicator) :
    SERVO_FULLY_CLOSED ≤ (l.foldl GrippingFSM.process s).servo_position ∧
    (l.foldl GrippingFSM.process s).servo_position ≤ SERVO_FULLY_OPEN :=
  ⟨(process_fold_invariant l s h1 h2 h3).1, (process_fold_invariant l s h1 h2 h3).2.1⟩

/-- Claim C6: whenever process runs in state REACTING it is a single-cycle transient:
regardless of inputs it steps servo_position down by
min(round(slip_indicator / SLIP_THRESHOLD), MAX_REACTION_STEPS), clamps at
fully-closed, clears the slip-detector state (slip_flag false, slip_indicator 0),
resets the grip timers to the current time, and transitions unconditionally to
HOLDING. -/
theorem reacting_single_cycle (s : FSMState) (inp : FSMInputs)
    (h : s.gripping_mode = GrippingMode.GRIPPING_MODE_REACTING) :
    GrippingFSM.process s inp =
      { gripping_mode := GrippingMode.GRIPPING_MODE_HOLDING
        servo_position := max SERVO_FULLY_CLOSED
          (s.servo_position -
            min (cround (s.slip.slip_indicator / SLIP_THRESHOLD)) MAX_REACTION_STEPS)
        last_reaction_time := s.last_reaction_time
        last_slip_or_entry_time := inp.now
        last_backoff_time := inp.now
        slip := { s.slip with slip_flag := false, slip_indicator := 0 } } := by
  obtain ⟨mode, pos, t1, t2, t3, slip⟩ := s
  simp only at h
  subst h
  unfold GrippingFSM.process
  dsimp only [SlipDetection.reset]
  simp only [FSMState.mk.injEq, min_def, max_def]
  split_ifs <;> simp_all <;> omega

/-- Claim C10: in HOLDING with a fresh slip frame (new_slip_data_ready and slip_flag
both set), the slip check runs first, and the later checks override the chosen
REACTING successor in the same cycle: the final state is GRASPING if button 1 is
pressed, else OPENING if button 2 is pressed, else GRASPING if the magnitude fell
below threshold minus margin, else REACTING; the slip frame is consumed either way
(new_slip_data_ready and slip_flag cleared). -/
theorem holding_override (s : FSMState) (inp : FSMInputs)
    (h : s.gripping_mode = GrippingMode.GRIPPING_MODE_HOLDING)
    (hr : s.slip.new_slip_data_ready = true)
    (hf : s.slip.slip_flag = true) :
    (GrippingFSM.process s inp).gripping_mode =
      (if inp.buttons.button_1 then GrippingMode.GRIPPING_MODE_GRASPING
       else if inp.buttons.button_2 then GrippingMode.GRIPPING_MODE_OPENING
       else if inp.magnitude < GRIP_MAGNITUDE_THRESHOLD - GRIP_MAGNITUDE_DROP_MARGIN then
         GrippingMode.GRIPPING_MODE_GRASPING
       else GrippingMode.GRIPPING_MODE_REACTING) ∧
    (GrippingFSM.process s inp).slip.new_slip_data_ready = false ∧
    (GrippingFSM.process s inp).slip.slip_flag = false := by
  unfold GrippingFSM.process
  rw [h]
  dsimp only
  rw [hr, hf]
  split_ifs <;> simp_all

/-- C truncation of a nonnegative rational is nonnegative. -/
theorem ctrunc_nonneg (x : ℚ) (h : 0 ≤ x) : 0 ≤ ctrunc x := by
  unfold ctrunc
  rw [if_pos h]
  exact Int.floor_nonneg.mpr h

/-- The truncated bin frequency is nonnegative. -/
theorem binFreqInt_nonneg (i : ℕ) : 0 ≤ binFreqInt i := by
  unfold binFreqInt
  refine ctrunc_nonneg _ (mul_nonneg (by positivity) ?_)
  norm_num [MAGNETIC_SENSOR_SAMPLING_FREQUENCY, FFT_SAMPLES, SCAN_INTERVAL_US]

/-- SlipDetection::detect can only produce a nonnegative slip indicator, so the
nonnegativity assumption of the position-bounds invariant is maintained by the only
writer of slip_indicator besides reset. -/
theorem detect_indicator_nonneg (s : SlipState) (complete : Bool) (vR vI : ℕ → ℚ)
    (h : 0 ≤ s.slip_indicator) :
    0 ≤ (SlipDetection.detect s complete vR vI).1.slip_indicator := by
  unfold SlipDetection.detect
  split_ifs
  · dsimp only
    have h1 : (0 : ℚ) ≤ (peakScan vR vI).1 :=
      peak_foldl_fst_ge (power vR vI) binFreqInt scannedBins (0, 0)
    have h2 : (0 : ℤ) ≤ (peakScan vR vI).2 := by
      rcases peak_foldl_mem (power vR vI) binFreqInt scannedBins (0, 0) with hm | hm
      · rw [peakScan, hm]
      · rcases hm with ⟨i, _, hEq⟩
        rw [peakScan, hEq]
        exact binFreqInt_nonneg i
    exact mul_nonneg h1 (by exact_mod_cast h2)
  · exact h

/-- Claim C5 witness: the position-bounds theorem applied to the initial OPEN state
at position 180 and two concrete input cycles. -/
theorem servo_position_bounds_witness :
    SERVO_FULLY_CLOSED ≤ (180 : ℤ) ∧ (180 : ℤ) ≤ SERVO_FULLY_OPEN ∧
    SERVO_FULLY_CLOSED ≤
      ([{ buttons := { button_1 := true, button_2 := false, button_3 := false,
                       button_4 := false, button_5 := false }, current_mA := 0,
          magnitude := 0, now := 100 }].foldl GrippingFSM.process
        { gripping_mode := GrippingMode.GRIPPING_MODE_OPEN, servo_position := 180,
          last_reaction_time := 0, last_slip_or_entry_time := 0, last_backoff_time := 0,
          slip := initSlip }).servo_position :=
  ⟨by decide, by decide,
    (servo_position_bounds
      { gripping_mode := GrippingMode.GRIPPING_MODE_OPEN, servo_position := 180,
        last_reaction_time := 0, last_slip_or_entry_time := 0, last_backoff_time := 0,
        slip := initSlip }
      [{ buttons := { button_1 := true, button_2 := false, button_3 := false,
                      button_4 := false, button_5 := false }, current_mA := 0,
         magnitude := 0, now := 100 }]
      (by decide) (by decide) (le_of_eq rfl)).1⟩

/-- Claim C6 witness: the REACTING theorem applied to a concrete reacting state;
the FSM lands in HOLDING with the position stepped and clamped. -/
theorem reacting_single_cycle_witness :
    ({ gripping_mode := GrippingMode.GRIPPING_MODE_REACTING, servo_position := 50,
       last_reaction_time := 0, last_slip_or_entry_time := 0, last_backoff_time := 0,
       slip := { slip_flag := true, slip_indicator := 100, new_slip_data_ready := false,
                 ignore_counter := 0 } } : FSMState).gripping_mode =
      GrippingMode.GRIPPING_MODE_REACTING ∧
    (GrippingFSM.process
      { gripping_mode := GrippingMode.GRIPPING_MODE_REACTING, servo_position := 50,
        last_reaction_time := 0, last_slip_or_entry_time := 0, last_backoff_time := 0,
        slip := { slip_flag := true, slip_indicator := 100, new_slip_data_ready := false,
                  ignore_counter := 0 } }
      { buttons := { button_1 := false, button_2 := false, button_3 := false,
                     button_4 := false, button_5 := false }, current_mA := 0,
        magnitude := 0, now := 42 }).gripping_mode = GrippingMode.GRIPPING_MODE_HOLDING :=
  ⟨rfl, by
    rw [reacting_single_cycle _
      { buttons := { button_1 := false, button_2 := false, button_3 := false,
                     button_4 := false, button_5 := false }, current_mA := 0,
        magnitude := 0, now := 42 } rfl]⟩

/-- Claim C10 witness: the HOLDING override theorem applied to a concrete state with a
fresh slip frame, no buttons, and a healthy magnitude: the FSM goes to REACTING and
the slip frame is consumed. -/
theorem holding_override_witness :
    (GrippingFSM.process
      { gripping_mode := GrippingMode.GRIPPING_MODE_HOLDING, servo_position := 50,
        last_reaction_time := 0, last_slip_or_entry_time := 0, last_backoff_time := 0,
        slip := { slip_flag := true, slip_indicator := 100, new_slip_data_ready := true,
                  ignore_counter := 0 } }
      { buttons := { button_1 := false, button_2 := false, button_3 := false,
                     button_4 := false, button_5 := false }, current_mA := 0,
        magnitude := 5, now := 42 }).gripping_mode = GrippingMode.GRIPPING_MODE_REACTING ∧
    (GrippingFSM.process
      { gripping_mode := GrippingMode.GRIPPING_MODE_HOLDING, servo_position := 50,
        last_reaction_time := 0, last_slip_or_entry_time := 0, last_backoff_time := 0,
        slip := { slip_flag := true, slip_indicator := 100, new_slip_data_ready := true,
                  ignore_counter := 0 } }
      { buttons := { button_1 := false, button_2 := false, button_3 := false,
                     button_4 := false, button_5 := false }, current_mA := 0,
        magnitude := 5, now := 42 }).slip.new_slip_data_ready = false := by
  have h := holding_override
    { gripping_mode := GrippingMode.GRIPPING_MODE_HOLDING, servo_position := 50,
      last_reaction_time := 0, last_slip_or_entry_time := 0, last_backoff_time := 0,
      slip := { slip_flag := true, slip_indicator := 100, new_slip_data_ready := true,
                ignore_counter := 0 } }
    { buttons := { button_1 := false, button_2 := false, button_3 := false,
                   button_4 := false, button_5 := false }, current_mA := 0,
      magnitude := 5, now := 42 } rfl rfl rfl
  refine ⟨?_, h.2.1⟩
  rw [h.1]
  with_unfolding_all rfl

-- ==================== Claim C7 ====================

/-- Claim C7: evaluation of the Thesis_Gripper slip detector at the failing input.
After ignoreFor(100), a completed window with in-band energy still raises slip_flag on
the very next detect call, and ignore_counter is still 100 afterwards: detect never
reads or decrements the counter, so the flag is not suppressed for the requested
cycles and the counter is not decremented once per cycle. -/
theorem ignore_counter_unused :
    (SlipDetection.ignoreFor 100 initSlip).ignore_counter = 100 ∧
    (SlipDetection.ignoreFor 100 initSlip).slip_flag = false ∧
    (SlipDetection.detectThesis (SlipDetection.ignoreFor 100 initSlip) true
      w10R wZero).1.slip_indicator = 1248 ∧
    (SlipDetection.detectThesis (SlipDetection.ignoreFor 100 initSlip) true
      w10R wZero).1.slip_flag = true ∧
    (SlipDetection.detectThesis (SlipDetection.ignoreFor 100 initSlip) true
      w10R wZero).1.ignore_counter = 100 := by
  refine ⟨rfl, rfl, ?_, ?_, rfl⟩
  · with_unfolding_all rfl
  · with_unfolding_all rfl

-- ==================== Claim C8 ====================

/-- Claim C8: for every filter state and every cycle, the band split satisfies
high_pass + low_pass = raw exactly on each of the four channels (x, y, z, magnitude),
and the raw fields are untouched, because each high-pass value is computed as raw
minus the 30 Hz low-pass output. -/
theorem band_split_reconstruction (st : BandSplitFilters) (d : MagneticData) :
    (Filters.applyBandSplitFilterMagneticSensor st d).2.x_high_pass +
      (Filters.applyBandSplitFilterMagneticSensor st d).2.x_low_pass = d.x ∧
    (Filters.applyBandSplitFilterMagneticSensor st d).2.y_high_pass +
      (Filters.applyBandSplitFilterMagneticSensor st d).2.y_low_pass = d.y ∧
    (Filters.applyBandSplitFilterMagneticSensor st d).2.z_high_pass +
      (Filters.applyBandSplitFilterMagneticSensor st d).2.z_low_pass = d.z ∧
    (Filters.applyBandSplitFilterMagneticSensor st d).2.magnitude_high_pass +
      (Filters.applyBandSplitFilterMagneticSensor st d).2.magnitude_low_pass =
        d.magnitude ∧
    (Filters.applyBandSplitFilterMagneticSensor st d).2.x = d.x ∧
    (Filters.applyBandSplitFilterMagneticSensor st d).2.y = d.y ∧
    (Filters.applyBandSplitFilterMagneticSensor st d).2.z = d.z ∧
    (Filters.applyBandSplitFilterMagneticSensor st d).2.magnitude = d.magnitude := by
  unfold Filters.applyBandSplitFilterMagneticSensor
  dsimp only
  refine ⟨?_, ?_, ?_, ?_, rfl, rfl, rfl, rfl⟩ <;> ring

-- ==================== Claim C9 ====================

/-- Prefix characterization of belowPrefix over a cons cell. -/
theorem belowPrefix_cons (a : ℤ) (l : List ℤ) (n : ℕ) :
    belowPrefix (n + 1) (a :: l) ↔ a < TMC_HOMING_THRESHOLD ∧ belowPrefix n l := by
  unfold belowPrefix
  constructor
  · rintro ⟨hlen, hall⟩
    refine ⟨by simpa using hall 0 (by omega), by simpa using hlen, ?_⟩
    intro k hk
    simpa using hall (k + 1) (by omega)
  · rintro ⟨ha, hlen, hall⟩
    refine ⟨by simpa using hlen, ?_⟩
    intro k hk
    cases k with
    | zero => simpa using ha
    | succ m => simpa using hall m (by omega)

/-- A shorter all-below prefix follows from a longer one. -/
theorem belowPrefix_mono {m n : ℕ} (h : m ≤ n) (l : List ℤ) :
    belowPrefix n l → belowPrefix m l := by
  rintro ⟨hlen, hall⟩
  exact ⟨le_trans h hlen, fun k hk => hall k (lt_of_lt_of_le hk h)⟩

/-- Suffix characterization of hasConsecBelow over a cons cell. -/
theorem hasConsecBelow_cons (n : ℕ) (a : ℤ) (l : List ℤ) :
    hasConsecBelow n (a :: l) ↔ belowPrefix n (a :: l) ∨ hasConsecBelow n l := by
  unfold hasConsecBelow
  constructor
  · rintro ⟨t, ht, hb⟩
    rcases List.suffix_cons_iff.mp ht with h | h
    · subst h
      exact Or.inl hb
    · exact Or.inr ⟨t, h, hb⟩
  · rintro (h | ⟨t, ht, hb⟩)
    · exact ⟨a :: l, List.suffix_refl _, h⟩
    · exact ⟨t, ht.trans (List.suffix_cons a l), hb⟩

/-- The stall-confirmation loop with c consecutive below-threshold readings already
seen declares a stall exactly when the remaining readings start with enough further
below-threshold readings or some later window of consecutive below-threshold readings
appears. -/
theorem stalledFrom_iff (l : List ℤ) : ∀ c : ℕ, c < TMC_HOMING_CONSECUTIVE_STALLS →
    (stalledFrom c l = true ↔
      belowPrefix (TMC_HOMING_CONSECUTIVE_STALLS - c) l ∨
        hasConsecBelow TMC_HOMING_CONSECUTIVE_STALLS l) := by
  induction l with
  | nil =>
      intro c hc
      constructor
      · intro h
        simp [stalledFrom] at h
      · rintro (⟨hlen, _⟩ | ⟨t, ht, hlen, _⟩)
        · simp at hlen
          omega
        · rw [List.suffix_nil.mp ht] at hlen
          simp at hlen
          omega
  | cons a l ih =>
      intro c hc
      unfold stalledFrom
      by_cases ha : a < TMC_HOMING_THRESHOLD
      · rw [if_pos ha]
        by_cases hc1 : TMC_HOMING_CONSECUTIVE_STALLS ≤ c + 1
        · rw [if_pos hc1]
          simp only [true_iff]
          left
          have h1 : TMC_HOMING_CONSECUTIVE_STALLS - c = 1 := by omega
          rw [h1]
          refine ⟨by simp, ?_⟩
          intro k hk
          have hk0 : k = 0 := by omega
          subst hk0
          simpa using ha
        · rw [if_neg hc1]
          have hc2 : c + 1 < TMC_HOMING_CONSECUTIVE_STALLS := by omega
          rw [ih (c + 1) hc2, hasConsecBelow_cons]
          have h3c : TMC_HOMING_CONSECUTIVE_STALLS - c =
              (TMC_HOMING_CONSECUTIVE_STALLS - (c + 1)) + 1 := by omega
          rw [h3c, belowPrefix_cons]
          have h3 : TMC_HOMING_CONSECUTIVE_STALLS =
              (TMC_HOMING_CONSECUTIVE_STALLS - 1) + 1 := by
            norm_num [TMC_HOMING_CONSECUTIVE_STALLS]
          constructor
          · rintro (h | h)
            · exact Or.inl ⟨ha, h⟩
            · exact Or.inr (Or.inr h)
          · rintro (⟨_, h⟩ | (h | h))
            · exact Or.inl h
            · rw [h3, belowPrefix_cons] at h
              exact Or.inl (belowPrefix_mono (by omega) l h.2)
            · exact Or.inr h
      · rw [if_neg ha]
        rw [ih 0 (by norm_num [TMC_HOMING_CONSECUTIVE_STALLS]), hasConsecBelow_cons]
        simp only [Nat.sub_zero]
        constructor
        · rintro (h | h)
          · exact Or.inr (Or.inr ⟨l, List.suffix_refl _, h⟩)
          · exact Or.inr (Or.inr h)
        · rintro (h | (h | h))
          · exfalso
            rcases h with ⟨hlen, hall⟩
            have := hall 0 (by omega)
            simp at this
            exact ha this
          · exfalso
            rcases h with ⟨hlen, hall⟩
            have := hall 0 (by norm_num [TMC_HOMING_CONSECUTIVE_STALLS])
            simp at this
            exact ha this
          · exact Or.inr h

/-- Claim C9: the homing approach loop declares stalled exactly when some
TMC_HOMING_CONSECUTIVE_STALLS consecutive readings lie below the homing threshold; a
single below-threshold reading never completes homing; and any reading at or above
the threshold resets the consecutive count to zero. -/
theorem homing_stall_debounce :
    (∀ loads : List ℤ, homingStalled loads = true ↔
      hasConsecBelow TMC_HOMING_CONSECUTIVE_STALLS loads) ∧
    (∀ load : ℤ, homingStalled [load] = false) ∧
    (∀ (c : ℕ) (l : ℤ) (ls : List ℤ), TMC_HOMING_THRESHOLD ≤ l →
      stalledFrom c (l :: ls) = stalledFrom 0 ls) := by
  refine ⟨?_, ?_, ?_⟩
  · intro loads
    rw [homingStalled,
      stalledFrom_iff loads 0 (by norm_num [TMC_HOMING_CONSECUTIVE_STALLS])]
    simp only [Nat.sub_zero]
    constructor
    · rintro (h | h)
      · exact ⟨loads, List.suffix_refl _, h⟩
      · exact h
    · exact Or.inr
  · intro load
    unfold homingStalled stalledFrom
    split_ifs with h1 h2
    · norm_num [TMC_HOMING_CONSECUTIVE_STALLS] at h2
    · rfl
    · rfl
  · intro c l ls h
    simp only [stalledFrom]
    rw [if_neg (not_lt.mpr h)]

/-- Claim C9 witness: the debounce theorem applied to concrete readings — an
at-threshold reading resets the loop, and a single low reading does not stall. -/
theorem homing_stall_debounce_witness :
    TMC_HOMING_THRESHOLD ≤ (3 : ℤ) ∧
    stalledFrom 0 [(3 : ℤ)] = stalledFrom 0 [] ∧
    homingStalled [(2 : ℤ)] = false :=
  ⟨by decide, homing_stall_debounce.2.2 0 3 [] (by decide), homing_stall_debounce.2.1 2⟩


end Gripper
